import Mathlib

/-!
# apko `build-minirootfs`: the build orchestration pipeline

A shallow embedding of `internal/cli/build-minirootfs.go`.

`BuildMinirootFSCmd` is straight-line orchestration code over external
collaborators (`os.MkdirTemp`, `os.RemoveAll`, `build.New`, `Context.Refresh`,
`Context.BuildLayer`, the logger).  The collaborators are the fields of a
`World`; the function itself is translated statement by statement and returns
the error it hands to its caller together with the sequence of collaborator
calls it made and the working directories left on disk.
-/

namespace Apko

/-! ## Go error values -/

/-- Go `error` values: an error produced by a collaborator, or the
`*fmt.wrapError` built by `fmt.Errorf` with a `%w` verb. -/
inductive GoError where
  | errorString (msg : String)
  | wrapError (msg : String) (err : GoError)
  deriving DecidableEq, Repr

namespace GoError

/-- The method `Error()`. -/
def Error : GoError → String
  | errorString msg => msg
  | wrapError msg _ => msg

/-- The method `Unwrap()`; `none` when the error wraps nothing. -/
def Unwrap : GoError → Option GoError
  | errorString _ => none
  | wrapError _ err => some err

/-- The chain walked by `errors.Is`: the error itself, then what it wraps. -/
def chain : GoError → List GoError
  | errorString msg => [errorString msg]
  | wrapError msg err => wrapError msg err :: chain err

end GoError

/-- The call `fmt.Errorf(ctx + "%w", err)`: the message is the context followed
by `err.Error()`, and `Unwrap` gives `err` back. -/
def Errorf (ctx : String) (err : GoError) : GoError :=
  GoError.wrapError (ctx ++ err.Error) err

/-! ## Types of `chainguard.dev/apko/pkg/build` used by the command -/

/-- The type `types.Architecture`; its declaration is outside `internal/cli`,
only `String()` (through the `%s` verb) is used here. -/
structure Architecture where
  s : String
  deriving DecidableEq, Repr

/-- The method `String()` of `types.Architecture`. -/
def Architecture.String (a : Architecture) : String := a.s

/-- The values of type `build.Option` that the command constructs. -/
inductive BuildOption where
  | WithConfig (configFile : String)
  | WithTarball (path : String)
  | WithProot (enable : Bool)
  | WithBuildDate (s : String)
  | WithSBOM (path : String)
  | WithArch (arch : Architecture)
  | WithDebugLogging (enable : Bool)
  deriving DecidableEq, Repr

/-- The fields of `types.ImageConfiguration` read by the command. -/
structure ImageConfiguration where
  Archs : List Architecture
  deriving DecidableEq, Repr

/-- The fields of `build.Options` read by the command. -/
structure Options where
  Arch : Architecture
  TarballPath : String
  deriving DecidableEq, Repr

/-- The fields of `build.Context` read by the command. -/
structure Context where
  ImageConfiguration : Apko.ImageConfiguration
  Options : Apko.Options
  deriving DecidableEq, Repr

/-- A `context.Context`, reduced to whether it has been cancelled. -/
structure GoContext where
  cancelled : Bool
  deriving DecidableEq, Repr

/-! ## Collaborators and observable behaviour -/

/-- The collaborators of `BuildMinirootFSCmd`, as the results they return.
`Refresh` has a pointer receiver: it returns the context as it left it. -/
structure World where
  MkdirTemp : String → String → Except GoError String
  RemoveAll : String → Option GoError
  New : String → List BuildOption → Except GoError Context
  Refresh : Context → Except GoError Context
  BuildLayer : Context → Except GoError String

/-- One collaborator call made by `BuildMinirootFSCmd`. -/
inductive Event where
  | MkdirTemp (dir pattern : String)
  | New (wd : String) (opts : List BuildOption)
  | Refresh
  | Printf (format : String) (args : List String)
  | BuildLayer
  | RemoveAll (path : String)
  deriving DecidableEq, Repr

/-- What a call of `BuildMinirootFSCmd` leaves behind: the returned error
(`none` is `nil`), the collaborator calls in the order they were made, and the
working directories existing on return. -/
structure Run where
  err : Option GoError
  trace : List Event
  dirs : List String
  deriving DecidableEq, Repr

/-- Effect of `os.RemoveAll path` on the set of directories: a `nil` result
means the path is gone, an error means it could not be removed. -/
def removeDir (res : Option GoError) (path : String) (dirs : List String) : List String :=
  match res with
  | none => dirs.filter (fun d => d ≠ path)
  | some _ => dirs

/-! ## `BuildMinirootFSCmd` -/

/-- Lines 85-87: the architecture warning, written when the configuration
lists any architecture. -/
def BuildMinirootFSCmd.warn (bc : Context) : List Event :=
  if bc.ImageConfiguration.Archs.length ≠ 0 then
    [Event.Printf "WARNING: ignoring archs in config, only building for current arch (%s)"
      [bc.Options.Arch.String]]
  else []

/-- Lines 76-97 of `build-minirootfs.go`: everything after the `defer`. -/
def BuildMinirootFSCmd.body (w : World) (wd : String) (opts : List BuildOption) :
    Option GoError × List Event :=
  match w.New wd opts with
  | .error err => (some err, [Event.New wd opts])
  | .ok bc =>
    match w.Refresh bc with
    | .error err => (some err, [Event.New wd opts, Event.Refresh])
    | .ok bc =>
      let t : List Event := [Event.New wd opts, Event.Refresh] ++ BuildMinirootFSCmd.warn bc ++
        [Event.Printf "building minirootfs '%s'" [bc.Options.TarballPath]]
      match w.BuildLayer bc with
      | .error err => (some (Errorf "failed to build layer image: " err), t ++ [Event.BuildLayer])
      | .ok layerTarGZ =>
        (none, t ++ [Event.BuildLayer, Event.Printf "wrote minirootfs to %s\n" [layerTarGZ]])

/-- The function `BuildMinirootFSCmd(ctx, opts...)`, run in a world `w` with
the directories `dirs0` on disk. The deferred `os.RemoveAll(wd)` runs after the
body, and its result is discarded. -/
def BuildMinirootFSCmd (w : World) (dirs0 : List String) (_ctx : GoContext)
    (opts : List BuildOption) : Run :=
  match w.MkdirTemp "" "apko-*" with
  | .error err =>
    { err := some (Errorf "failed to create working directory: " err)
      trace := [Event.MkdirTemp "" "apko-*"]
      dirs := dirs0 }
  | .ok wd =>
    let r := BuildMinirootFSCmd.body w wd opts
    { err := r.1
      trace := Event.MkdirTemp "" "apko-*" :: r.2 ++ [Event.RemoveAll wd]
      dirs := removeDir (w.RemoveAll wd) wd (wd :: dirs0) }

/-! ## The `build-minirootfs` command -/

/-- What the command line gives for each flag; `none` when the flag is absent. -/
structure Flags where
  useProot : Option Bool
  debug : Option Bool
  buildDate : Option String
  buildArch : Option String
  sbomPath : Option String
  deriving DecidableEq, Repr

/-- The variables `useProot`, `debugEnabled`, `buildDate`, `buildArch` and
`sbomPath` of `buildMinirootFS`, as `RunE` finds them. -/
structure FlagVars where
  useProot : Bool
  debugEnabled : Bool
  buildDate : String
  buildArch : String
  sbomPath : String
  deriving DecidableEq, Repr

/-- The `cmd.Flags().BoolVar` and `StringVar` registrations of lines 57-61: each
variable holds the flag's value, or the registered default when it is absent.
`GOARCH` is `runtime.GOARCH`. -/
def registerFlags (GOARCH : String) (f : Flags) : FlagVars :=
  { useProot := f.useProot.getD false
    debugEnabled := f.debug.getD false
    buildDate := f.buildDate.getD ""
    buildArch := f.buildArch.getD GOARCH
    sbomPath := f.sbomPath.getD "" }

/-- The option list of lines 46-52; `arg0` and `arg1` are `args[0]` and
`args[1]` (`cobra.ExactArgs(2)`), `ParseArchitecture` is
`types.ParseArchitecture`. -/
def buildMinirootFS.opts (ParseArchitecture : String → Architecture) (v : FlagVars)
    (arg0 arg1 : String) : List BuildOption :=
  [ BuildOption.WithConfig arg0,
    BuildOption.WithTarball arg1,
    BuildOption.WithProot v.useProot,
    BuildOption.WithBuildDate v.buildDate,
    BuildOption.WithSBOM v.sbomPath,
    BuildOption.WithArch (ParseArchitecture v.buildArch),
    BuildOption.WithDebugLogging v.debugEnabled ]

/-- The `RunE` closure of `buildMinirootFS`. -/
def buildMinirootFS.RunE (w : World) (dirs0 : List String) (ctx : GoContext)
    (ParseArchitecture : String → Architecture) (v : FlagVars) (arg0 arg1 : String) : Run :=
  BuildMinirootFSCmd w dirs0 ctx (buildMinirootFS.opts ParseArchitecture v arg0 arg1)

/-- Whether an option is a `build.WithArch`. -/
def BuildOption.isWithArch : BuildOption → Bool
  | BuildOption.WithArch _ => true
  | _ => false

/-! ## Reading a trace -/

/-- The phases of one call. -/
inductive Phase where
  | Acquire
  | Configure
  | Refresh
  | BuildLayer
  | Release
  deriving DecidableEq, Repr

/-- The phase a collaborator call belongs to; logging belongs to none. -/
def Event.phase : Event → Option Phase
  | Event.MkdirTemp _ _ => some Phase.Acquire
  | Event.New _ _ => some Phase.Configure
  | Event.Refresh => some Phase.Refresh
  | Event.BuildLayer => some Phase.BuildLayer
  | Event.RemoveAll _ => some Phase.Release
  | Event.Printf _ _ => none

/-- The phases of a trace, in the order they were run. -/
def phases (t : List Event) : List Phase := t.filterMap Event.phase

/-- Position of a phase in the order in which the code runs them. -/
def Phase.codeRank : Phase → Nat
  | Phase.Acquire => 0
  | Phase.Configure => 1
  | Phase.Refresh => 2
  | Phase.BuildLayer => 3
  | Phase.Release => 4

/-- Position of a phase in the control flow as the specification words it:
Configuring, Acquiring-Workdir, Assembling, Packaging, Released. -/
def Phase.specRank : Phase → Nat
  | Phase.Configure => 0
  | Phase.Acquire => 1
  | Phase.Refresh => 2
  | Phase.BuildLayer => 3
  | Phase.Release => 4

/-- Whether a call is an `os.RemoveAll`. -/
def Event.isRemoveAll : Event → Bool
  | Event.RemoveAll _ => true
  | _ => false

/-- Whether a call writes to the logging sink. -/
def Event.isPrintf : Event → Bool
  | Event.Printf _ _ => true
  | _ => false

/-- Whether a format string opens with `WARNING`. -/
def hasWarningTag : List Char → Bool
  | 'W' :: 'A' :: 'R' :: 'N' :: 'I' :: 'N' :: 'G' :: _ => true
  | _ => false

/-- Whether a call writes a warning to the logging sink. -/
def Event.isWarning : Event → Bool
  | Event.Printf format _ => hasWarningTag format.data
  | _ => false

/-- Substitution of the `%s` verbs of a format by the arguments, in order. -/
def Sprintf.go : List Char → List String → List Char
  | '%' :: 's' :: cs, a :: as => a.data ++ Sprintf.go cs as
  | c :: cs, as => c :: Sprintf.go cs as
  | [], _ => []

/-- The call `fmt.Sprintf(format, args...)` for formats whose verbs are `%s`. -/
def Sprintf (format : String) (args : List String) : String :=
  String.mk (Sprintf.go format.data args)

/-- The lines written to the logging sink, rendered, in order. -/
def logged (t : List Event) : List String :=
  t.filterMap fun e =>
    match e with
    | Event.Printf format args => some (Sprintf format args)
    | _ => none

/-- Whether anything is written to the logging sink after the first
`os.RemoveAll` of a trace. -/
def loggedAfterRemove (t : List Event) : Bool :=
  (t.dropWhile fun e => !e.isRemoveAll).any Event.isPrintf

/-- Some phase of the pipeline fails: `os.MkdirTemp`, or `build.New` on the
directory created, or `Refresh` on the context built, or `BuildLayer` on the
context refreshed. -/
def phaseFails (w : World) (opts : List BuildOption) : Prop :=
  (∃ e, w.MkdirTemp "" "apko-*" = .error e) ∨
  (∃ wd, w.MkdirTemp "" "apko-*" = .ok wd ∧
    ((∃ e, w.New wd opts = .error e) ∨
     (∃ bc, w.New wd opts = .ok bc ∧
       ((∃ e, w.Refresh bc = .error e) ∨
        (∃ bc', w.Refresh bc = .ok bc' ∧ ∃ e, w.BuildLayer bc' = .error e)))))

/-- The returned error `r` surfaces the phase error `e` with phase context
attached: unwrapping `r` gives `e`, and the message of `r` is a non-empty
context followed by the message of `e`. -/
def surfacedWithContext (r e : GoError) : Prop :=
  r.Unwrap = some e ∧ ∃ c : String, c ≠ "" ∧ r.Error = c ++ e.Error

/-- The world `w` with another outcome of `os.RemoveAll`. -/
def World.withRemoveAll (w : World) (rm : String → Option GoError) : World :=
  { w with RemoveAll := rm }

/-! ## The layer archive

The archive is written by `Context.BuildLayer`, of the package
`chainguard.dev/apko/pkg/build` of this module, whose sources are not among
those embedded above. What follows is its behaviour as the specification
describes it. -/

/-- Modelled from the spec: a file of the image as packages and configuration
directives define it (the AssembledFilesystem of the data model: every file
traces to a resolved package or configuration directive); stands for the tree
built by the missing `pkg/build`. -/
structure FileSpec where
  path : String
  content : String
  uid : Nat
  gid : Nat
  mode : Nat
  deriving DecidableEq, Repr

/-- Modelled from the spec: a file of the assembled tree as a host stores it,
with the modification time and the owner the host gave it; stands for the
working directory filled by the missing `pkg/build`. -/
structure HostFile where
  file : FileSpec
  mtime : Nat
  owner : Nat
  deriving DecidableEq, Repr

/-- Modelled from the spec: what a build may find on the machine it runs on and
the archive must not depend on (host clock, host filesystem ordering, invoking
user), with the host's native architecture; the missing `pkg/build` reads
them. -/
structure Host where
  GOARCH : String
  now : Nat
  uid : Nat
  readdir : List HostFile → List HostFile

/-- Modelled from the spec: an entry of the LayerArtifact written by the missing
`Context.BuildLayer`, with the metadata the Deterministic Archive Packager
normalises. -/
structure ArchiveEntry where
  path : String
  content : String
  mtime : Nat
  uid : Nat
  gid : Nat
  mode : Nat
  deriving DecidableEq, Repr

/-- Modelled from the spec: the BuildOptions that the missing `build.New`
resolves, as far as the archive depends on them: configuration source, target
architecture, build timestamp as given. -/
structure ResolvedOptions where
  configFile : String
  arch : Architecture
  buildDate : String
  deriving DecidableEq, Repr

/-- Modelled from the spec: one option mutator of the Build Option Resolver
applied to the options (the missing bodies of `build.WithConfig`,
`build.WithArch`, `build.WithBuildDate`); the other mutators leave these fields
alone. -/
def applyOption (o : ResolvedOptions) : BuildOption → ResolvedOptions
  | BuildOption.WithConfig configFile => { o with configFile := configFile }
  | BuildOption.WithArch arch => { o with arch := arch }
  | BuildOption.WithBuildDate s => { o with buildDate := s }
  | _ => o

/-- Modelled from the spec: the Build Option Resolver of the missing
`build.New`: the mutators applied in order to the defaults, where the
architecture defaults to the host's native one and the timestamp is unset. -/
def resolveOptions (hostArch : Architecture) (opts : List BuildOption) : ResolvedOptions :=
  opts.foldl applyOption { configFile := "", arch := hostArch, buildDate := "" }

/-- Modelled from the spec: the fixed epoch that the build timestamp defaults
to when unset (a constant of the missing `pkg/build`). -/
def defaultBuildDate : Nat := 0

/-- Modelled from the spec: the build timestamp of the BuildOptions, the fixed
default when unset and the parse of the given string otherwise; stands for the
missing body of `build.WithBuildDate`. -/
def buildTimestamp (parseDate : String → Option Nat) (s : String) : Option Nat :=
  if s = "" then some defaultBuildDate else parseDate s

/-- Modelled from the spec: the Filesystem Assembler of the missing `pkg/build`:
the files of the resolved package set are written into the working directory,
where the host stamps them with its clock and its user and lists them in its
own directory order. -/
def assemble (h : Host) (files : List FileSpec) : List HostFile :=
  h.readdir (files.map fun f => { file := f, mtime := h.now, owner := h.uid })

/-- Modelled from the spec: the archive entry of a file at build timestamp
`ts`: its modification time is the build timestamp, its ownership and
permission bits are those derived from the configuration (Deterministic Archive
Packager, b and c); part of the missing `Context.BuildLayer`. -/
def FileSpec.entry (ts : Nat) (f : FileSpec) : ArchiveEntry :=
  { path := f.path
    content := f.content
    mtime := ts
    uid := f.uid
    gid := f.gid
    mode := f.mode }

/-- Modelled from the spec: the archive entry of a file of the tree, in which
nothing of the host's metadata is kept; part of the missing
`Context.BuildLayer`. -/
def normalise (ts : Nat) (hf : HostFile) : ArchiveEntry :=
  hf.file.entry ts

/-- Modelled from the spec: the Deterministic Archive Packager of the missing
`Context.BuildLayer`: the tree is walked in lexicographic path order and each
entry is written with normalised metadata. -/
def package (ts : Nat) (tree : List HostFile) : List ArchiveEntry :=
  (tree.insertionSort fun a b => a.file.path.data ≤ b.file.path.data).map (normalise ts)

/-- Modelled from the spec: the entries of the layer archive that one build
writes on host `h` for an option list, through the missing `build.New` and
`Context.BuildLayer`: options are resolved, the configuration is loaded, its
package set is installed for the target architecture and the tree is packaged.
`loadConfig` is the configuration source and `install` the package-resolution
collaborator; `none` is a failed build. -/
def layerEntries {Config : Type} (loadConfig : String → Option Config)
    (install : Config → Architecture → List FileSpec) (parseDate : String → Option Nat)
    (ParseArchitecture : String → Architecture) (h : Host) (opts : List BuildOption) :
    Option (List ArchiveEntry) :=
  let o := resolveOptions (ParseArchitecture h.GOARCH) opts
  match loadConfig o.configFile, buildTimestamp parseDate o.buildDate with
  | some cfg, some ts => some (package ts (assemble h (install cfg o.arch)))
  | _, _ => none

/-- Modelled from the spec: the bytes of the layer archive, the compressed
tar-format encoding `encode` of its entries; stands for the tarball writer of
the missing `pkg/build`. -/
def layerArchive {Config : Type} (encode : List ArchiveEntry → List Nat)
    (loadConfig : String → Option Config)
    (install : Config → Architecture → List FileSpec) (parseDate : String → Option Nat)
    (ParseArchitecture : String → Architecture) (h : Host) (opts : List BuildOption) :
    Option (List Nat) :=
  (layerEntries loadConfig install parseDate ParseArchitecture h opts).map encode

/-- A host that lists directories in the order files were written. -/
def hostA : Host :=
  { GOARCH := "amd64", now := 1650000000, uid := 1000, readdir := fun l => l }

/-- A host with another architecture, clock and user, that lists directories
in the reverse order. -/
def hostB : Host :=
  { GOARCH := "arm64", now := 1700000000, uid := 0, readdir := List.reverse }

/-- A package set of two files. -/
def twoFiles : List FileSpec :=
  [ { path := "usr/bin/busybox", content := "ELF", uid := 0, gid := 0, mode := 493 },
    { path := "etc/os-release", content := "ID=alpine", uid := 0, gid := 0, mode := 420 } ]

/-- Flags giving `--build-arch amd64` and nothing else. -/
def flagsArch : Flags :=
  { useProot := none, debug := none, buildDate := none, buildArch := some "amd64",
    sbomPath := none }

/-! ## Concrete worlds -/

/-- A configuration declaring two architectures, built for the first. -/
def twoArchContext : Context :=
  { ImageConfiguration := { Archs := [⟨"amd64"⟩, ⟨"arm64"⟩] }
    Options := { Arch := ⟨"amd64"⟩, TarballPath := "out.tar.gz" } }

/-- Every collaborator succeeds. -/
def worldOk : World :=
  { MkdirTemp := fun _ _ => .ok "/tmp/apko-1"
    RemoveAll := fun _ => none
    New := fun _ _ => .ok twoArchContext
    Refresh := fun bc => .ok bc
    BuildLayer := fun _ => .ok "out.tar.gz" }

/-- The working directory cannot be created. -/
def worldMkdirFails : World :=
  { worldOk with MkdirTemp := fun _ _ => .error (GoError.errorString "mkdir /tmp/apko-1: no space left on device") }

/-- The error `build.New` fails with in `worldNewFails`. -/
def newError : GoError := GoError.errorString "failed to parse image configuration"

/-- The call `build.New` fails. -/
def worldNewFails : World :=
  { worldOk with New := fun _ _ => .error newError }

/-- The call `Refresh` fails. -/
def worldRefreshFails : World :=
  { worldOk with Refresh := fun _ => .error (GoError.errorString "proot not found") }

/-- The call `BuildLayer` fails. -/
def worldBuildLayerFails : World :=
  { worldOk with BuildLayer := fun _ => .error (GoError.errorString "failed to build image") }

/-- Every phase succeeds and the removal of the working directory fails. -/
def worldRemoveFails : World :=
  { worldOk with RemoveAll := fun _ => some (GoError.errorString "unlinkat /tmp/apko-1/proc: device or resource busy") }

/-- A configuration declaring the one architecture that is being built. -/
def oneArchContext : Context :=
  { ImageConfiguration := { Archs := [⟨"amd64"⟩] }
    Options := { Arch := ⟨"amd64"⟩, TarballPath := "out.tar.gz" } }

/-- Every collaborator succeeds, on a configuration declaring one architecture. -/
def worldOneArch : World :=
  { worldOk with New := fun _ _ => .ok oneArchContext }

/-- A context that is not cancelled. -/
def ctx0 : GoContext := { cancelled := false }

/-! ## Theorems -/

/-! ### The runs of `BuildMinirootFSCmd`, case by case -/

theorem run_mkdir_error {w : World} {e : GoError} (dirs0 : List String) (ctx : GoContext)
    (opts : List BuildOption) (hmk : w.MkdirTemp "" "apko-*" = .error e) :
    BuildMinirootFSCmd w dirs0 ctx opts =
      { err := some (Errorf "failed to create working directory: " e)
        trace := [Event.MkdirTemp "" "apko-*"]
        dirs := dirs0 } := by
  simp [BuildMinirootFSCmd, hmk]

theorem run_new_error {w : World} {wd : String} {e : GoError} (dirs0 : List String)
    (ctx : GoContext) (opts : List BuildOption)
    (hmk : w.MkdirTemp "" "apko-*" = .ok wd) (hnew : w.New wd opts = .error e) :
    BuildMinirootFSCmd w dirs0 ctx opts =
      { err := some e
        trace := [Event.MkdirTemp "" "apko-*", Event.New wd opts, Event.RemoveAll wd]
        dirs := removeDir (w.RemoveAll wd) wd (wd :: dirs0) } := by
  simp [BuildMinirootFSCmd, BuildMinirootFSCmd.body, hmk, hnew]

theorem run_refresh_error {w : World} {wd : String} {bc : Context} {e : GoError}
    (dirs0 : List String) (ctx : GoContext) (opts : List BuildOption)
    (hmk : w.MkdirTemp "" "apko-*" = .ok wd) (hnew : w.New wd opts = .ok bc)
    (href : w.Refresh bc = .error e) :
    BuildMinirootFSCmd w dirs0 ctx opts =
      { err := some e
        trace := [Event.MkdirTemp "" "apko-*", Event.New wd opts, Event.Refresh,
          Event.RemoveAll wd]
        dirs := removeDir (w.RemoveAll wd) wd (wd :: dirs0) } := by
  simp [BuildMinirootFSCmd, BuildMinirootFSCmd.body, hmk, hnew, href]

theorem run_buildLayer_error {w : World} {wd : String} {bc bc' : Context} {e : GoError}
    (dirs0 : List String) (ctx : GoContext) (opts : List BuildOption)
    (hmk : w.MkdirTemp "" "apko-*" = .ok wd) (hnew : w.New wd opts = .ok bc)
    (href : w.Refresh bc = .ok bc') (hbl : w.BuildLayer bc' = .error e) :
    BuildMinirootFSCmd w dirs0 ctx opts =
      { err := some (Errorf "failed to build layer image: " e)
        trace := [Event.MkdirTemp "" "apko-*", Event.New wd opts, Event.Refresh] ++
          BuildMinirootFSCmd.warn bc' ++
          [Event.Printf "building minirootfs '%s'" [bc'.Options.TarballPath], Event.BuildLayer,
            Event.RemoveAll wd]
        dirs := removeDir (w.RemoveAll wd) wd (wd :: dirs0) } := by
  simp [BuildMinirootFSCmd, BuildMinirootFSCmd.body, hmk, hnew, href, hbl]

theorem run_ok {w : World} {wd : String} {bc bc' : Context} {out : String}
    (dirs0 : List String) (ctx : GoContext) (opts : List BuildOption)
    (hmk : w.MkdirTemp "" "apko-*" = .ok wd) (hnew : w.New wd opts = .ok bc)
    (href : w.Refresh bc = .ok bc') (hbl : w.BuildLayer bc' = .ok out) :
    BuildMinirootFSCmd w dirs0 ctx opts =
      { err := none
        trace := [Event.MkdirTemp "" "apko-*", Event.New wd opts, Event.Refresh] ++
          BuildMinirootFSCmd.warn bc' ++
          [Event.Printf "building minirootfs '%s'" [bc'.Options.TarballPath], Event.BuildLayer,
            Event.Printf "wrote minirootfs to %s\n" [out], Event.RemoveAll wd]
        dirs := removeDir (w.RemoveAll wd) wd (wd :: dirs0) } := by
  simp [BuildMinirootFSCmd, BuildMinirootFSCmd.body, hmk, hnew, href, hbl]

/-- The warning is either absent or the single `WARNING` line. -/
theorem warn_cases (bc : Context) :
    BuildMinirootFSCmd.warn bc = [] ∨
    BuildMinirootFSCmd.warn bc =
      [Event.Printf "WARNING: ignoring archs in config, only building for current arch (%s)"
        [bc.Options.Arch.String]] := by
  unfold BuildMinirootFSCmd.warn
  split <;> simp

/-- C1, as stated, fails: when every phase succeeds and the deferred
`os.RemoveAll` returns an error, the working directory still exists after the
call has returned. -/
theorem workdir_survives_failed_removal :
    worldRemoveFails.MkdirTemp "" "apko-*" = .ok "/tmp/apko-1" ∧
    "/tmp/apko-1" ∈ (BuildMinirootFSCmd worldRemoveFails [] ctx0 []).dirs :=
  ⟨rfl, by decide⟩

/-- C1, amended: whenever the working directory `wd` was created, whatever the
later phases return and whatever the context, `os.RemoveAll wd` is called
exactly once, it is the last call before the function returns, and `wd` does
not exist afterwards when that removal succeeds. -/
theorem workdir_removed_once_last (w : World) (dirs0 : List String) (ctx : GoContext)
    (opts : List BuildOption) (wd : String)
    (hmk : w.MkdirTemp "" "apko-*" = .ok wd) :
    (BuildMinirootFSCmd w dirs0 ctx opts).trace.filter Event.isRemoveAll = [Event.RemoveAll wd] ∧
    (BuildMinirootFSCmd w dirs0 ctx opts).trace.getLast? = some (Event.RemoveAll wd) ∧
    (w.RemoveAll wd = none → wd ∉ (BuildMinirootFSCmd w dirs0 ctx opts).dirs) := by
  cases hn : w.New wd opts with
  | error e =>
    rw [run_new_error dirs0 ctx opts hmk hn]
    refine ⟨by simp [Event.isRemoveAll], by simp, fun hrm => by simp [hrm, removeDir]⟩
  | ok bc =>
    cases hr : w.Refresh bc with
    | error e =>
      rw [run_refresh_error dirs0 ctx opts hmk hn hr]
      refine ⟨by simp [Event.isRemoveAll], by simp, fun hrm => by simp [hrm, removeDir]⟩
    | ok bc' =>
      cases hb : w.BuildLayer bc' with
      | error e =>
        rw [run_buildLayer_error dirs0 ctx opts hmk hn hr hb]
        refine ⟨?_, ?_, fun hrm => by simp [hrm, removeDir]⟩
        · rcases warn_cases bc' with hw | hw <;> simp [hw, Event.isRemoveAll]
        · rcases warn_cases bc' with hw | hw <;> simp [hw]
      | ok out =>
        rw [run_ok dirs0 ctx opts hmk hn hr hb]
        refine ⟨?_, ?_, fun hrm => by simp [hrm, removeDir]⟩
        · rcases warn_cases bc' with hw | hw <;> simp [hw, Event.isRemoveAll]
        · rcases warn_cases bc' with hw | hw <;> simp [hw]

/-- Concrete instance: a run in which `BuildLayer` fails
under a cancelled context. -/
theorem workdir_removed_once_last_witness :
    worldBuildLayerFails.MkdirTemp "" "apko-*" = .ok "/tmp/apko-1" ∧
    (BuildMinirootFSCmd worldBuildLayerFails ["/tmp/other"] ⟨true⟩ []).trace.filter
        Event.isRemoveAll = [Event.RemoveAll "/tmp/apko-1"] ∧
    (BuildMinirootFSCmd worldBuildLayerFails ["/tmp/other"] ⟨true⟩ []).trace.getLast? =
        some (Event.RemoveAll "/tmp/apko-1") ∧
    "/tmp/apko-1" ∉ (BuildMinirootFSCmd worldBuildLayerFails ["/tmp/other"] ⟨true⟩ []).dirs :=
  ⟨rfl,
   (workdir_removed_once_last worldBuildLayerFails ["/tmp/other"] ⟨true⟩ [] "/tmp/apko-1" rfl).1,
   (workdir_removed_once_last worldBuildLayerFails ["/tmp/other"] ⟨true⟩ [] "/tmp/apko-1" rfl).2.1,
   (workdir_removed_once_last worldBuildLayerFails ["/tmp/other"] ⟨true⟩ [] "/tmp/apko-1" rfl).2.2
     rfl⟩

/-- C2: `BuildMinirootFSCmd` returns a non-nil error exactly when one of its
phases (creation of the working directory, `build.New`, `Refresh`,
`BuildLayer`) fails, whatever architectures the configuration lists; and the
error it returns is the same whatever `os.RemoveAll` returns. -/
theorem error_iff_phase_fails (w : World) (dirs0 : List String) (ctx : GoContext)
    (opts : List BuildOption) :
    ((BuildMinirootFSCmd w dirs0 ctx opts).err ≠ none ↔ phaseFails w opts) ∧
    (∀ rm : String → Option GoError,
      (BuildMinirootFSCmd (w.withRemoveAll rm) dirs0 ctx opts).err =
        (BuildMinirootFSCmd w dirs0 ctx opts).err) := by
  cases hmk : w.MkdirTemp "" "apko-*" with
  | error e =>
    refine ⟨?_, fun rm => ?_⟩
    · rw [run_mkdir_error dirs0 ctx opts hmk]
      simp [phaseFails, hmk]
    · have hmk' : (w.withRemoveAll rm).MkdirTemp "" "apko-*" = .error e := hmk
      rw [run_mkdir_error dirs0 ctx opts hmk, run_mkdir_error dirs0 ctx opts hmk']
  | ok wd =>
    cases hn : w.New wd opts with
    | error e =>
      refine ⟨?_, fun rm => ?_⟩
      · rw [run_new_error dirs0 ctx opts hmk hn]
        simp [phaseFails, hmk, hn]
      · have hmk' : (w.withRemoveAll rm).MkdirTemp "" "apko-*" = .ok wd := hmk
        have hn' : (w.withRemoveAll rm).New wd opts = .error e := hn
        rw [run_new_error dirs0 ctx opts hmk hn, run_new_error dirs0 ctx opts hmk' hn']
    | ok bc =>
      cases hr : w.Refresh bc with
      | error e =>
        refine ⟨?_, fun rm => ?_⟩
        · rw [run_refresh_error dirs0 ctx opts hmk hn hr]
          simp [phaseFails, hmk, hn, hr]
        · have hmk' : (w.withRemoveAll rm).MkdirTemp "" "apko-*" = .ok wd := hmk
          have hn' : (w.withRemoveAll rm).New wd opts = .ok bc := hn
          have hr' : (w.withRemoveAll rm).Refresh bc = .error e := hr
          rw [run_refresh_error dirs0 ctx opts hmk hn hr,
            run_refresh_error dirs0 ctx opts hmk' hn' hr']
      | ok bc' =>
        cases hb : w.BuildLayer bc' with
        | error e =>
          refine ⟨?_, fun rm => ?_⟩
          · rw [run_buildLayer_error dirs0 ctx opts hmk hn hr hb]
            simp [phaseFails, hmk, hn, hr, hb]
          · have hmk' : (w.withRemoveAll rm).MkdirTemp "" "apko-*" = .ok wd := hmk
            have hn' : (w.withRemoveAll rm).New wd opts = .ok bc := hn
            have hr' : (w.withRemoveAll rm).Refresh bc = .ok bc' := hr
            have hb' : (w.withRemoveAll rm).BuildLayer bc' = .error e := hb
            rw [run_buildLayer_error dirs0 ctx opts hmk hn hr hb,
              run_buildLayer_error dirs0 ctx opts hmk' hn' hr' hb']
        | ok out =>
          refine ⟨?_, fun rm => ?_⟩
          · rw [run_ok dirs0 ctx opts hmk hn hr hb]
            simp [phaseFails, hmk, hn, hr, hb]
          · have hmk' : (w.withRemoveAll rm).MkdirTemp "" "apko-*" = .ok wd := hmk
            have hn' : (w.withRemoveAll rm).New wd opts = .ok bc := hn
            have hr' : (w.withRemoveAll rm).Refresh bc = .ok bc' := hr
            have hb' : (w.withRemoveAll rm).BuildLayer bc' = .ok out := hb
            rw [run_ok dirs0 ctx opts hmk hn hr hb, run_ok dirs0 ctx opts hmk' hn' hr' hb']

/-! ### Phases of a run -/

theorem phases_warn (bc : Context) : phases (BuildMinirootFSCmd.warn bc) = [] := by
  rcases warn_cases bc with h | h <;> simp [h, phases, Event.phase]

theorem phases_append (t u : List Event) : phases (t ++ u) = phases t ++ phases u := by
  simp [phases]

/-- The four shapes of a run, read as phases. -/
theorem phases_cases (w : World) (dirs0 : List String) (ctx : GoContext)
    (opts : List BuildOption) :
    phases (BuildMinirootFSCmd w dirs0 ctx opts).trace = [Phase.Acquire] ∨
    phases (BuildMinirootFSCmd w dirs0 ctx opts).trace =
      [Phase.Acquire, Phase.Configure, Phase.Release] ∨
    phases (BuildMinirootFSCmd w dirs0 ctx opts).trace =
      [Phase.Acquire, Phase.Configure, Phase.Refresh, Phase.Release] ∨
    phases (BuildMinirootFSCmd w dirs0 ctx opts).trace =
      [Phase.Acquire, Phase.Configure, Phase.Refresh, Phase.BuildLayer, Phase.Release] := by
  cases hmk : w.MkdirTemp "" "apko-*" with
  | error e =>
    rw [run_mkdir_error dirs0 ctx opts hmk]
    exact Or.inl (by simp [phases, Event.phase])
  | ok wd =>
    cases hn : w.New wd opts with
    | error e =>
      rw [run_new_error dirs0 ctx opts hmk hn]
      exact Or.inr (Or.inl (by simp [phases, Event.phase]))
    | ok bc =>
      cases hr : w.Refresh bc with
      | error e =>
        rw [run_refresh_error dirs0 ctx opts hmk hn hr]
        exact Or.inr (Or.inr (Or.inl (by simp [phases, Event.phase])))
      | ok bc' =>
        refine Or.inr (Or.inr (Or.inr ?_))
        cases hb : w.BuildLayer bc' with
        | error e =>
          rw [run_buildLayer_error dirs0 ctx opts hmk hn hr hb, phases_append, phases_append,
            phases_warn]
          simp [phases, Event.phase]
        | ok out =>
          rw [run_ok dirs0 ctx opts hmk hn hr hb, phases_append, phases_append, phases_warn]
          simp [phases, Event.phase]

/-- C3: no phase is invoked twice in a call, and a failed phase ends the
pipeline: after a failed creation of the working directory nothing else is
invoked (not even the release), after a failed `build.New` only the release,
after a failed `Refresh` only the release. -/
theorem phase_failure_aborts (w : World) (dirs0 : List String) (ctx : GoContext)
    (opts : List BuildOption) :
    (phases (BuildMinirootFSCmd w dirs0 ctx opts).trace).Nodup ∧
    (∀ e, w.MkdirTemp "" "apko-*" = .error e →
      phases (BuildMinirootFSCmd w dirs0 ctx opts).trace = [Phase.Acquire]) ∧
    (∀ wd e, w.MkdirTemp "" "apko-*" = .ok wd → w.New wd opts = .error e →
      phases (BuildMinirootFSCmd w dirs0 ctx opts).trace =
        [Phase.Acquire, Phase.Configure, Phase.Release]) ∧
    (∀ wd bc e, w.MkdirTemp "" "apko-*" = .ok wd → w.New wd opts = .ok bc →
      w.Refresh bc = .error e →
      phases (BuildMinirootFSCmd w dirs0 ctx opts).trace =
        [Phase.Acquire, Phase.Configure, Phase.Refresh, Phase.Release]) := by
  refine ⟨?_, ?_, ?_, ?_⟩
  · rcases phases_cases w dirs0 ctx opts with h | h | h | h <;> rw [h] <;> decide
  · intro e hmk
    rw [run_mkdir_error dirs0 ctx opts hmk]
    simp [phases, Event.phase]
  · intro wd e hmk hn
    rw [run_new_error dirs0 ctx opts hmk hn]
    simp [phases, Event.phase]
  · intro wd bc e hmk hn hr
    rw [run_refresh_error dirs0 ctx opts hmk hn hr]
    simp [phases, Event.phase]

/-- Concrete instance: the runs in which the creation of the
working directory, `build.New` and `Refresh` fail. -/
theorem phase_failure_aborts_witness :
    phases (BuildMinirootFSCmd worldMkdirFails [] ctx0 []).trace = [Phase.Acquire] ∧
    phases (BuildMinirootFSCmd worldNewFails [] ctx0 []).trace =
      [Phase.Acquire, Phase.Configure, Phase.Release] ∧
    phases (BuildMinirootFSCmd worldRefreshFails [] ctx0 []).trace =
      [Phase.Acquire, Phase.Configure, Phase.Refresh, Phase.Release] :=
  ⟨(phase_failure_aborts worldMkdirFails [] ctx0 []).2.1 _ rfl,
   (phase_failure_aborts worldNewFails [] ctx0 []).2.2.1 "/tmp/apko-1" _ rfl rfl,
   (phase_failure_aborts worldRefreshFails [] ctx0 []).2.2.2 "/tmp/apko-1" twoArchContext _
     rfl rfl rfl⟩

/-! ### Errors -/

theorem Errorf_surfaced (c : String) (e : GoError) (hc : c ≠ "") :
    surfacedWithContext (Errorf c e) e :=
  ⟨rfl, c, hc, rfl⟩

/-- C4, as stated, fails: when `build.New` fails with `newError`, the caller
receives `newError` itself, which neither unwraps to `newError` nor carries any
phase context. -/
theorem new_error_returned_bare :
    worldNewFails.New "/tmp/apko-1" [] = .error newError ∧
    (BuildMinirootFSCmd worldNewFails [] ctx0 []).err = some newError ∧
    ¬ surfacedWithContext newError newError := by
  refine ⟨rfl, rfl, ?_⟩
  intro h
  exact absurd h.1 (by decide)

/-- C4, amended: an error `e` of the creation of the working directory or of
`BuildLayer` is returned wrapped, with the phase's context before its message
and `e` recoverable by unwrapping; an error `e` of `build.New` or of `Refresh`
is returned as `e` itself, with nothing attached. -/
theorem phase_error_surfaced (w : World) (dirs0 : List String) (ctx : GoContext)
    (opts : List BuildOption) :
    (∀ e, w.MkdirTemp "" "apko-*" = .error e →
      (BuildMinirootFSCmd w dirs0 ctx opts).err =
          some (Errorf "failed to create working directory: " e) ∧
        surfacedWithContext (Errorf "failed to create working directory: " e) e) ∧
    (∀ wd e, w.MkdirTemp "" "apko-*" = .ok wd → w.New wd opts = .error e →
      (BuildMinirootFSCmd w dirs0 ctx opts).err = some e) ∧
    (∀ wd bc e, w.MkdirTemp "" "apko-*" = .ok wd → w.New wd opts = .ok bc →
      w.Refresh bc = .error e →
      (BuildMinirootFSCmd w dirs0 ctx opts).err = some e) ∧
    (∀ wd bc bc' e, w.MkdirTemp "" "apko-*" = .ok wd → w.New wd opts = .ok bc →
      w.Refresh bc = .ok bc' → w.BuildLayer bc' = .error e →
      (BuildMinirootFSCmd w dirs0 ctx opts).err =
          some (Errorf "failed to build layer image: " e) ∧
        surfacedWithContext (Errorf "failed to build layer image: " e) e) := by
  refine ⟨?_, ?_, ?_, ?_⟩
  · intro e hmk
    rw [run_mkdir_error dirs0 ctx opts hmk]
    exact ⟨rfl, Errorf_surfaced _ e (by decide)⟩
  · intro wd e hmk hn
    rw [run_new_error dirs0 ctx opts hmk hn]
  · intro wd bc e hmk hn hr
    rw [run_refresh_error dirs0 ctx opts hmk hn hr]
  · intro wd bc bc' e hmk hn hr hb
    rw [run_buildLayer_error dirs0 ctx opts hmk hn hr hb]
    exact ⟨rfl, Errorf_surfaced _ e (by decide)⟩

/-- Concrete instance: the four failing runs. -/
theorem phase_error_surfaced_witness :
    (BuildMinirootFSCmd worldMkdirFails [] ctx0 []).err =
      some (GoError.wrapError
        "failed to create working directory: mkdir /tmp/apko-1: no space left on device"
        (GoError.errorString "mkdir /tmp/apko-1: no space left on device")) ∧
    (BuildMinirootFSCmd worldNewFails [] ctx0 []).err = some newError ∧
    (BuildMinirootFSCmd worldRefreshFails [] ctx0 []).err =
      some (GoError.errorString "proot not found") ∧
    (BuildMinirootFSCmd worldBuildLayerFails [] ctx0 []).err =
      some (GoError.wrapError "failed to build layer image: failed to build image"
        (GoError.errorString "failed to build image")) :=
  ⟨((phase_error_surfaced worldMkdirFails [] ctx0 []).1 _ rfl).1,
   (phase_error_surfaced worldNewFails [] ctx0 []).2.1 "/tmp/apko-1" _ rfl rfl,
   (phase_error_surfaced worldRefreshFails [] ctx0 []).2.2.1 "/tmp/apko-1" twoArchContext _
     rfl rfl rfl,
   ((phase_error_surfaced worldBuildLayerFails [] ctx0 []).2.2.2 "/tmp/apko-1" twoArchContext
     twoArchContext _ rfl rfl rfl rfl).1⟩

/-! ### The architecture warning -/

/-- The warnings of a run in which `build.New` and `Refresh` succeeded are
those of lines 85-87. -/
theorem warnings_of_run {w : World} {wd : String} {bc bc' : Context}
    (dirs0 : List String) (ctx : GoContext) (opts : List BuildOption)
    (hmk : w.MkdirTemp "" "apko-*" = .ok wd) (hnew : w.New wd opts = .ok bc)
    (href : w.Refresh bc = .ok bc') :
    (BuildMinirootFSCmd w dirs0 ctx opts).trace.filter Event.isWarning =
      BuildMinirootFSCmd.warn bc' := by
  have hwarn : (BuildMinirootFSCmd.warn bc').filter Event.isWarning =
      BuildMinirootFSCmd.warn bc' := by
    rcases warn_cases bc' with h | h
    · simp [h]
    · rw [h]; simp [Event.isWarning, hasWarningTag]
  cases hb : w.BuildLayer bc' with
  | error e =>
    rw [run_buildLayer_error dirs0 ctx opts hmk hnew href hb]
    simp only [List.filter_append, hwarn]
    simp [Event.isWarning, hasWarningTag]
  | ok out =>
    rw [run_ok dirs0 ctx opts hmk hnew href hb]
    simp only [List.filter_append, hwarn]
    simp [Event.isWarning, hasWarningTag]

theorem Sprintf_warning (s : String) :
    Sprintf "WARNING: ignoring archs in config, only building for current arch (%s)" [s] =
      "WARNING: ignoring archs in config, only building for current arch (" ++ s ++ ")" := by
  apply String.ext
  simp [Sprintf, Sprintf.go]

/-- C5: for a configuration declaring two architectures `a` and `b`, built for
`a`, with every phase succeeding, exactly one warning is written to the logging
sink, it reads `... only building for current arch (a)`, `BuildLayer` is
invoked and the call returns nil. -/
theorem multi_arch_warning (w : World) (dirs0 : List String) (ctx : GoContext)
    (opts : List BuildOption) (wd out : String) (bc bc' : Context) (a b : Architecture)
    (hmk : w.MkdirTemp "" "apko-*" = .ok wd) (hnew : w.New wd opts = .ok bc)
    (href : w.Refresh bc = .ok bc') (hbl : w.BuildLayer bc' = .ok out)
    (harchs : bc'.ImageConfiguration.Archs = [a, b]) (harch : bc'.Options.Arch = a) :
    (logged ((BuildMinirootFSCmd w dirs0 ctx opts).trace.filter Event.isWarning) =
      ["WARNING: ignoring archs in config, only building for current arch (" ++ a.String
        ++ ")"]) ∧
    Event.BuildLayer ∈ (BuildMinirootFSCmd w dirs0 ctx opts).trace ∧
    (BuildMinirootFSCmd w dirs0 ctx opts).err = none := by
  refine ⟨?_, ?_, ?_⟩
  · rw [warnings_of_run dirs0 ctx opts hmk hnew href]
    simp [BuildMinirootFSCmd.warn, harchs, harch, logged, Sprintf_warning]
  · rw [run_ok dirs0 ctx opts hmk hnew href hbl]
    simp
  · rw [run_ok dirs0 ctx opts hmk hnew href hbl]

/-- Concrete instance: a configuration declaring amd64 and arm64,
built for amd64. -/
theorem multi_arch_warning_witness :
    (logged ((BuildMinirootFSCmd worldOk [] ctx0 []).trace.filter Event.isWarning) =
      ["WARNING: ignoring archs in config, only building for current arch (amd64)"]) ∧
    Event.BuildLayer ∈ (BuildMinirootFSCmd worldOk [] ctx0 []).trace ∧
    (BuildMinirootFSCmd worldOk [] ctx0 []).err = none :=
  multi_arch_warning worldOk [] ctx0 [] "/tmp/apko-1" "out.tar.gz" twoArchContext twoArchContext
    ⟨"amd64"⟩ ⟨"arm64"⟩ rfl rfl rfl rfl rfl rfl

/-- C10: when the working directory is created and `build.New` and `Refresh`
succeed, the warnings of the run are decided by the length of the
configuration's architecture list alone: none when it is empty, the one warning
naming the build architecture otherwise, also when the list is the build
architecture itself. -/
theorem warning_iff_archs_nonempty (w : World) (dirs0 : List String) (ctx : GoContext)
    (opts : List BuildOption) (wd : String) (bc bc' : Context)
    (hmk : w.MkdirTemp "" "apko-*" = .ok wd) (hnew : w.New wd opts = .ok bc)
    (href : w.Refresh bc = .ok bc') :
    ((∃ e ∈ (BuildMinirootFSCmd w dirs0 ctx opts).trace, e.isWarning = true) ↔
      bc'.ImageConfiguration.Archs ≠ []) ∧
    (BuildMinirootFSCmd w dirs0 ctx opts).trace.filter Event.isWarning =
      (if bc'.ImageConfiguration.Archs.length ≠ 0 then
        [Event.Printf "WARNING: ignoring archs in config, only building for current arch (%s)"
          [bc'.Options.Arch.String]]
       else []) ∧
    (bc'.ImageConfiguration.Archs = [bc'.Options.Arch] →
      (BuildMinirootFSCmd w dirs0 ctx opts).trace.filter Event.isWarning =
        [Event.Printf "WARNING: ignoring archs in config, only building for current arch (%s)"
          [bc'.Options.Arch.String]]) := by
  have hfilter := warnings_of_run dirs0 ctx opts hmk hnew href
  refine ⟨?_, ?_, ?_⟩
  · have hex : (∃ e ∈ (BuildMinirootFSCmd w dirs0 ctx opts).trace, e.isWarning = true) ↔
        (BuildMinirootFSCmd w dirs0 ctx opts).trace.filter Event.isWarning ≠ [] := by
      rw [Ne, List.filter_eq_nil_iff]
      push_neg
      rfl
    rw [hex, hfilter]
    unfold BuildMinirootFSCmd.warn
    by_cases h : bc'.ImageConfiguration.Archs = [] <;> simp [h]
  · rw [hfilter]; rfl
  · intro h
    rw [hfilter]
    simp [BuildMinirootFSCmd.warn, h]

/-- Concrete instance: a configuration declaring amd64
alone, built for amd64, is warned about. -/
theorem warning_iff_archs_nonempty_witness :
    worldOneArch.Refresh oneArchContext = .ok oneArchContext ∧
    oneArchContext.ImageConfiguration.Archs = [oneArchContext.Options.Arch] ∧
    (BuildMinirootFSCmd worldOneArch [] ctx0 []).trace.filter Event.isWarning =
      [Event.Printf "WARNING: ignoring archs in config, only building for current arch (%s)"
        ["amd64"]] :=
  ⟨rfl, rfl,
   (warning_iff_archs_nonempty worldOneArch [] ctx0 [] "/tmp/apko-1" oneArchContext
     oneArchContext rfl rfl rfl).2.2 rfl⟩

/-! ### Failure of the removal -/

/-- The calls of a run do not depend on what `os.RemoveAll` returns. -/
theorem trace_withRemoveAll (w : World) (rm : String → Option GoError) (dirs0 : List String)
    (ctx : GoContext) (opts : List BuildOption) :
    (BuildMinirootFSCmd (w.withRemoveAll rm) dirs0 ctx opts).trace =
      (BuildMinirootFSCmd w dirs0 ctx opts).trace := by
  have hbody : BuildMinirootFSCmd.body (w.withRemoveAll rm) = BuildMinirootFSCmd.body w := rfl
  cases hmk : w.MkdirTemp "" "apko-*" with
  | error e =>
    have hmk' : (w.withRemoveAll rm).MkdirTemp "" "apko-*" = .error e := hmk
    simp [BuildMinirootFSCmd, hmk, hmk']
  | ok wd =>
    have hmk' : (w.withRemoveAll rm).MkdirTemp "" "apko-*" = .ok wd := hmk
    simp [BuildMinirootFSCmd, hmk, hmk', hbody]

/-- C6, as stated, fails: in a run whose removal of the working directory fails,
nothing is written to the logging sink after the removal. -/
theorem cleanup_failure_not_logged :
    worldRemoveFails.RemoveAll "/tmp/apko-1" =
      some (GoError.errorString "unlinkat /tmp/apko-1/proc: device or resource busy") ∧
    (BuildMinirootFSCmd worldRemoveFails [] ctx0 []).trace.getLast? =
      some (Event.RemoveAll "/tmp/apko-1") ∧
    loggedAfterRemove (BuildMinirootFSCmd worldRemoveFails [] ctx0 []).trace = false ∧
    logged (BuildMinirootFSCmd worldRemoveFails [] ctx0 []).trace =
      logged (BuildMinirootFSCmd worldOk [] ctx0 []).trace := by
  decide

/-- C6, amended: the result of the removal of the working directory is
discarded. Nothing is ever written to the logging sink after the removal, and
the lines logged and the error returned are the same whatever the removal
returns. -/
theorem cleanup_result_discarded (w : World) (rm : String → Option GoError)
    (dirs0 : List String) (ctx : GoContext) (opts : List BuildOption) :
    loggedAfterRemove (BuildMinirootFSCmd w dirs0 ctx opts).trace = false ∧
    logged (BuildMinirootFSCmd (w.withRemoveAll rm) dirs0 ctx opts).trace =
      logged (BuildMinirootFSCmd w dirs0 ctx opts).trace ∧
    (BuildMinirootFSCmd (w.withRemoveAll rm) dirs0 ctx opts).err =
      (BuildMinirootFSCmd w dirs0 ctx opts).err := by
  refine ⟨?_, by rw [trace_withRemoveAll], ?_⟩
  · cases hmk : w.MkdirTemp "" "apko-*" with
    | error e =>
      rw [run_mkdir_error dirs0 ctx opts hmk]
      simp [loggedAfterRemove, Event.isRemoveAll, Event.isPrintf]
    | ok wd =>
      cases hn : w.New wd opts with
      | error e =>
        rw [run_new_error dirs0 ctx opts hmk hn]
        simp [loggedAfterRemove, Event.isRemoveAll, Event.isPrintf]
      | ok bc =>
        cases hr : w.Refresh bc with
        | error e =>
          rw [run_refresh_error dirs0 ctx opts hmk hn hr]
          simp [loggedAfterRemove, Event.isRemoveAll, Event.isPrintf]
        | ok bc' =>
          cases hb : w.BuildLayer bc' with
          | error e =>
            rw [run_buildLayer_error dirs0 ctx opts hmk hn hr hb]
            rcases warn_cases bc' with h | h <;>
              simp [h, loggedAfterRemove, Event.isRemoveAll, Event.isPrintf]
          | ok out =>
            rw [run_ok dirs0 ctx opts hmk hn hr hb]
            rcases warn_cases bc' with h | h <;>
              simp [h, loggedAfterRemove, Event.isRemoveAll, Event.isPrintf]
  · have hbody : BuildMinirootFSCmd.body (w.withRemoveAll rm) = BuildMinirootFSCmd.body w := rfl
    cases hmk : w.MkdirTemp "" "apko-*" with
    | error e =>
      have hmk' : (w.withRemoveAll rm).MkdirTemp "" "apko-*" = .error e := hmk
      simp [BuildMinirootFSCmd, hmk, hmk']
    | ok wd =>
      have hmk' : (w.withRemoveAll rm).MkdirTemp "" "apko-*" = .ok wd := hmk
      simp [BuildMinirootFSCmd, hmk, hmk', hbody]

/-! ### Order of the phases -/

/-- C7, as stated, fails: in a run in which every phase succeeds the phases do
not come in the order Configuring, Acquiring-Workdir, Assembling, Packaging,
Released: the working directory is acquired before `build.New` is called. -/
theorem spec_order_violated :
    phases (BuildMinirootFSCmd worldOk [] ctx0 []).trace =
      [Phase.Acquire, Phase.Configure, Phase.Refresh, Phase.BuildLayer, Phase.Release] ∧
    ¬ List.Pairwise (fun p q => p.specRank < q.specRank)
      (phases (BuildMinirootFSCmd worldOk [] ctx0 []).trace) := by
  decide

/-- C7, amended: in every run the phases come in the order acquisition of the
working directory, `build.New`, `Refresh`, `BuildLayer`, release of the working
directory: the acquisition is first, no phase comes before a predecessor in
that order, and unless the acquisition was the only phase the release is
last. -/
theorem phases_in_code_order (w : World) (dirs0 : List String) (ctx : GoContext)
    (opts : List BuildOption) :
    List.Pairwise (fun p q => p.codeRank < q.codeRank)
      (phases (BuildMinirootFSCmd w dirs0 ctx opts).trace) ∧
    (phases (BuildMinirootFSCmd w dirs0 ctx opts).trace).head? = some Phase.Acquire ∧
    (phases (BuildMinirootFSCmd w dirs0 ctx opts).trace = [Phase.Acquire] ∨
      (phases (BuildMinirootFSCmd w dirs0 ctx opts).trace).getLast? = some Phase.Release) := by
  rcases phases_cases w dirs0 ctx opts with h | h | h | h <;> rw [h] <;> decide

/-! ### Resolution of the architecture -/

/-- C8: the option list the command passes on holds exactly one `WithArch`:
that of the parse of the host architecture when `--build-arch` is absent, that
of the parse of `v` when it is given as `v`, whatever the host architecture and
the other flags and arguments. -/
theorem arch_option_resolution (GOARCH : String) (ParseArchitecture : String → Architecture)
    (f : Flags) (v arg0 arg1 : String) :
    (buildMinirootFS.opts ParseArchitecture
        (registerFlags GOARCH { f with buildArch := none }) arg0 arg1).filter
      BuildOption.isWithArch = [BuildOption.WithArch (ParseArchitecture GOARCH)] ∧
    (buildMinirootFS.opts ParseArchitecture
        (registerFlags GOARCH { f with buildArch := some v }) arg0 arg1).filter
      BuildOption.isWithArch = [BuildOption.WithArch (ParseArchitecture v)] ∧
    (∀ (w : World) (dirs0 : List String) (ctx : GoContext) (vars : FlagVars),
      buildMinirootFS.RunE w dirs0 ctx ParseArchitecture vars arg0 arg1 =
        BuildMinirootFSCmd w dirs0 ctx (buildMinirootFS.opts ParseArchitecture vars arg0 arg1)) := by
  refine ⟨?_, ?_, fun _ _ _ _ => rfl⟩ <;>
    simp [buildMinirootFS.opts, registerFlags, BuildOption.isWithArch]

/-! ### Determinism of the layer archive -/

/-- The options the resolver reads off the command's option list. -/
theorem resolveOptions_opts (hostArch : Architecture)
    (ParseArchitecture : String → Architecture) (v : FlagVars) (arg0 arg1 : String) :
    resolveOptions hostArch (buildMinirootFS.opts ParseArchitecture v arg0 arg1) =
      { configFile := arg0, arch := ParseArchitecture v.buildArch, buildDate := v.buildDate } := by
  simp [resolveOptions, buildMinirootFS.opts, applyOption]

/-- Two trees holding the same files, with distinct paths, in any order and
with any host metadata, are packaged into the same entries. -/
theorem package_eq_of_perm (ts : Nat) (files : List FileSpec) (t1 t2 : List HostFile)
    (h1 : (t1.map HostFile.file).Perm files) (h2 : (t2.map HostFile.file).Perm files)
    (hpaths : (files.map FileSpec.path).Nodup) :
    package ts t1 = package ts t2 := by
  have hmap : ∀ t : List HostFile, package ts t =
      (t.map (normalise ts)).insertionSort
        (fun a b : ArchiveEntry => a.path.data ≤ b.path.data) := by
    intro t
    unfold package
    exact List.map_insertionSort _ _ (normalise ts) t (fun a _ b _ => Iff.rfl)
  have hnorm : ∀ t : List HostFile, t.map (normalise ts) =
      (t.map HostFile.file).map (FileSpec.entry ts) := by
    intro t
    simp [normalise, Function.comp_def]
  have hperm : (t1.map (normalise ts)).Perm (t2.map (normalise ts)) := by
    rw [hnorm t1, hnorm t2]
    exact (h1.map _).trans (h2.map _).symm
  have hmem : ∀ a, a ∈ t1.map (normalise ts) → ∃ f ∈ files, a = f.entry ts := by
    intro a ha
    rw [hnorm t1] at ha
    obtain ⟨f, hf, rfl⟩ := List.mem_map.1 ha
    exact ⟨f, h1.subset hf, rfl⟩
  haveI : IsTotal ArchiveEntry (fun a b => a.path.data ≤ b.path.data) :=
    ⟨fun a b => le_total a.path.data b.path.data⟩
  haveI : IsTrans ArchiveEntry (fun a b => a.path.data ≤ b.path.data) :=
    ⟨fun _ _ _ hab hbc => le_trans hab hbc⟩
  rw [hmap t1, hmap t2]
  refine List.Perm.eq_of_sorted ?_ (List.sorted_insertionSort _ _) (List.sorted_insertionSort _ _)
    (((List.perm_insertionSort _ _).trans hperm).trans (List.perm_insertionSort _ _).symm)
  intro a b ha hb hab hba
  have ha' := (List.perm_insertionSort _ _).subset ha
  have hb' := hperm.symm.subset ((List.perm_insertionSort _ _).subset hb)
  obtain ⟨f, hf, rfl⟩ := hmem a ha'
  obtain ⟨g, hg, rfl⟩ := hmem b hb'
  have hpath : f.path = g.path := String.ext (le_antisymm hab hba)
  have hfg : f = g := List.inj_on_of_nodup_map hpaths hf hg hpath
  rw [hfg]

theorem twoFiles_paths : (twoFiles.map FileSpec.path).Nodup := by decide

/-- C9, on the archive packager as the specification describes it: for the same
flags and arguments, hence the same configuration and build timestamp, and the
same resolved architecture, two builds on hosts that differ in clock, user,
directory order and native architecture write byte-identical archives; and
without `--build-date` every entry carries the fixed default timestamp. -/
theorem layer_archive_deterministic {Config : Type} (encode : List ArchiveEntry → List Nat)
    (loadConfig : String → Option Config)
    (install : Config → Architecture → List FileSpec) (parseDate : String → Option Nat)
    (ParseArchitecture : String → Architecture) (h1 h2 : Host) (f : Flags) (arg0 arg1 : String)
    (hdir1 : ∀ l, (h1.readdir l).Perm l) (hdir2 : ∀ l, (h2.readdir l).Perm l)
    (hpaths : ∀ cfg arch, ((install cfg arch).map FileSpec.path).Nodup)
    (harch : ParseArchitecture (f.buildArch.getD h1.GOARCH) =
      ParseArchitecture (f.buildArch.getD h2.GOARCH)) :
    layerArchive encode loadConfig install parseDate ParseArchitecture h1
        (buildMinirootFS.opts ParseArchitecture (registerFlags h1.GOARCH f) arg0 arg1) =
      layerArchive encode loadConfig install parseDate ParseArchitecture h2
        (buildMinirootFS.opts ParseArchitecture (registerFlags h2.GOARCH f) arg0 arg1) ∧
    (f.buildDate = none →
      ∀ es, layerEntries loadConfig install parseDate ParseArchitecture h1
          (buildMinirootFS.opts ParseArchitecture (registerFlags h1.GOARCH f) arg0 arg1) = some es →
        ∀ e ∈ es, e.mtime = defaultBuildDate) := by
  have hfile : ∀ (h : Host) (files : List FileSpec), (∀ l, (h.readdir l).Perm l) →
      ((assemble h files).map HostFile.file).Perm files := by
    intro h files hdir
    unfold assemble
    refine ((hdir _).map _).trans ?_
    simp [Function.comp_def]
  refine ⟨?_, ?_⟩
  · unfold layerArchive layerEntries
    simp only [resolveOptions_opts, registerFlags]
    rw [harch]
    cases hc : loadConfig arg0 with
    | none => rfl
    | some cfg =>
      cases ht : buildTimestamp parseDate (f.buildDate.getD "") with
      | none => rfl
      | some ts =>
        simp only [Option.map_some']
        rw [package_eq_of_perm ts (install cfg (ParseArchitecture (f.buildArch.getD h2.GOARCH)))
          _ _ (hfile h1 _ hdir1) (hfile h2 _ hdir2) (hpaths _ _)]
  · intro hdate es hes e he
    unfold layerEntries at hes
    simp only [resolveOptions_opts, registerFlags, hdate, Option.getD_none, buildTimestamp,
      if_true] at hes
    cases hc : loadConfig arg0 with
    | none => simp [hc] at hes
    | some cfg =>
      simp only [hc, Option.some.injEq] at hes
      subst hes
      unfold package at he
      obtain ⟨hf, _, rfl⟩ := List.mem_map.1 he
      rfl

/-- Concrete instance: an amd64 build of a two-file
package set on an amd64 host and on an arm64 host with another clock, user and
directory order gives the same archive, whose entries are in path order and
carry the default timestamp. -/
theorem layer_archive_deterministic_witness :
    layerArchive (fun es => es.map fun e => e.path.length + e.mtime) (fun _ => some ())
        (fun _ _ => twoFiles) (fun _ => none) Architecture.mk hostA
        (buildMinirootFS.opts Architecture.mk (registerFlags hostA.GOARCH flagsArch)
          "apko.yaml" "out.tar.gz") =
      layerArchive (fun es => es.map fun e => e.path.length + e.mtime) (fun _ => some ())
        (fun _ _ => twoFiles) (fun _ => none) Architecture.mk hostB
        (buildMinirootFS.opts Architecture.mk (registerFlags hostB.GOARCH flagsArch)
          "apko.yaml" "out.tar.gz") ∧
    layerEntries (fun _ => some ()) (fun _ _ => twoFiles) (fun _ => none) Architecture.mk hostB
        (buildMinirootFS.opts Architecture.mk (registerFlags hostB.GOARCH flagsArch)
          "apko.yaml" "out.tar.gz") =
      some [ { path := "etc/os-release", content := "ID=alpine", mtime := 0, uid := 0, gid := 0,
               mode := 420 },
             { path := "usr/bin/busybox", content := "ELF", mtime := 0, uid := 0, gid := 0,
               mode := 493 } ] :=
  ⟨(layer_archive_deterministic (fun es => es.map fun e => e.path.length + e.mtime)
      (fun _ => some ()) (fun _ _ => twoFiles) (fun _ => none) Architecture.mk hostA hostB
      flagsArch "apko.yaml" "out.tar.gz" (fun l => List.Perm.refl l)
      (fun l => List.reverse_perm l) (fun _ _ => twoFiles_paths) rfl).1,
   by decide⟩

end Apko
